import Mathlib

/-!
# RPIWeatherStreaming — verification of the sampling/caching core

Shallow embedding of the code in `weather_sensor.py` (class `WeatherSensor`)
and `weather_main.py` (class `WeatherStreamingApp`).

Modelling conventions:
* Python floats are modelled as `ℚ`; `round(x, n)` is modelled as
  nearest-integer rounding of `x * 10^n` divided by `10^n` (Mathlib's `round`),
  and `round(x)`/`int(round(x))` as `round : ℚ → ℤ`.
* A fallible computation (a `try:` block that may raise) is modelled by an
  `Option` input: `some v` is the value the block computed, `none` is the
  exception path.
* Wall-clock instants (`time.time()`) are explicit `ℚ` parameters.
* Date formatting (`strftime`) is outside the model; the `"%Y%m%d%H%M%S"`
  rendering of the capture instant is taken as an opaque `String` input.
-/

namespace WeatherStreaming

/-- The `_sensor_cache` dict of `WeatherSensor` (weather_sensor.py, `__init__`):
six data fields, the wall-clock refresh time `last_update`, and the
`update_count` sequence number. -/
structure SensorCache where
  temperature : ℚ
  humidity : ℚ
  pressure : ℚ
  device_temperature : ℚ
  dewpoint : ℚ
  lux : ℚ
  last_update : ℚ
  update_count : ℕ
  deriving Repr, DecidableEq

/-- One successful reading of the Weather HAT inside `_update_sensor_cache`:
the six values read off `self.weather_hat` after `update(interval=1.0)`. -/
structure PollReading where
  temperature : ℚ
  humidity : ℚ
  pressure : ℚ
  device_temperature : ℚ
  dewpoint : ℚ
  lux : ℚ
  deriving Repr, DecidableEq

/-- `WeatherSensor._update_sensor_cache` (weather_sensor.py lines 301-344).
The local variables `temperature` … `lux` are initialized to `0.0`; if the
hardware read succeeds they are overwritten with the polled values (`poll =
some r`); if it raises, or no HAT is present, they keep the defaults
(`poll = none`).  The cache is then rewritten wholesale under the lock:
all six data fields, `last_update := time.time()` (the parameter `now`),
and `update_count` incremented. -/
def updateSensorCache (c : SensorCache) (poll : Option PollReading) (now : ℚ) :
    SensorCache :=
  let r : PollReading :=
    match poll with
    | some r => r
    | none => { temperature := 0, humidity := 0, pressure := 0,
                device_temperature := 0, dewpoint := 0, lux := 0 }
  { temperature := r.temperature
    humidity := r.humidity
    pressure := r.pressure
    device_temperature := r.device_temperature
    dewpoint := r.dewpoint
    lux := r.lux
    last_update := now
    update_count := c.update_count + 1 }

/-- A whole sequence of background refresh cycles: each element of `steps` is
the poll outcome of one `_update_sensor_cache` call together with the
wall-clock time at which that cycle wrote the cache. -/
def runRefreshes (c : SensorCache) (steps : List (Option PollReading × ℚ)) :
    SensorCache :=
  steps.foldl (fun acc step => updateSensorCache acc step.1 step.2) c

/-- The `_system_metrics_cache` dict of `WeatherSensor`: four host metrics and
one shared refresh time `last_update`.  `disk_usage` is a formatted string
(`"<free-MB> MB"`). -/
structure SystemMetricsCache where
  cpu_temp : ℚ
  cpu_usage : ℚ
  memory_usage : ℚ
  disk_usage : String
  last_update : ℚ
  deriving Repr, DecidableEq

/-- The four fallible metric computations attempted by
`_update_system_metrics_cache`; each `some v` is the value the corresponding
`try:` block would have produced, `none` its exception path.  `cpu_temp`
carries `round(float(cputemp) / 1000.0)`, `disk_usage` the formatted
`f"{free_mb:.1f} MB"` string. -/
structure MetricReadings where
  cpu_temp : Option ℚ
  cpu_usage : Option ℚ
  memory_usage : Option ℚ
  disk_usage : Option String
  deriving Repr, DecidableEq

/-- `cache_duration = 60.0` seconds (`_system_metrics_cache_duration`). -/
def systemMetricsCacheDuration : ℚ := 60

/-- `WeatherSensor._update_system_metrics_cache` (weather_sensor.py lines
190-232).  If `now - last_update < 60` the cache is untouched; otherwise the
four metrics are recomputed independently, a failing one falling back to its
private default (`0.0`, or `"0.0 MB"` for disk), and the shared `last_update`
is set to `now` regardless of individual failures. -/
def updateSystemMetricsCache (m : SystemMetricsCache) (now : ℚ)
    (r : MetricReadings) : SystemMetricsCache :=
  if now - m.last_update < systemMetricsCacheDuration then
    m
  else
    { cpu_temp := r.cpu_temp.getD 0
      cpu_usage := r.cpu_usage.getD 0
      memory_usage := r.memory_usage.getD 0
      disk_usage := r.disk_usage.getD "0.0 MB"
      last_update := now }

/-- Python's `round(x, 2)` on the model rationals: nearest value with two
decimal places. -/
def round2 (x : ℚ) : ℚ := (round (x * 100) : ℤ) / 100

/-- Python's `round(x, 1)`: nearest value with one decimal place. -/
def round1 (x : ℚ) : ℚ := (round (x * 10) : ℤ) / 10

/-- Per-call environment inputs of `read_sensor_data`: the fresh `uuid4`
string, the 3-letter random lowercase word, the `"%Y%m%d%H%M%S"` rendering of
the capture instant, the outcomes of the four system-metric computations
(consulted if the metrics cache must refresh), and how long this call takes
(`end_time - start_time`). -/
structure ReadInputs where
  uuidStr : String
  randomword : String
  timestampStr : String
  metricReads : MetricReadings
  readDuration : ℚ
  deriving Repr, DecidableEq

/-- Foreground state threaded through `read_sensor_data` calls: the wall
clock and the mutable system-metrics cache. -/
structure FgState where
  now : ℚ
  metrics : SystemMetricsCache
  deriving Repr, DecidableEq

/-- The telemetry record dict built by `read_sensor_data` (weather_sensor.py
lines 399-423).  `endtime` and `te` are stringified numbers in the code and
kept numeric here; the `systemtime`/`starttime` fields are pure date
renderings of the same instants and are not modelled. -/
structure Record where
  uuid : String
  ipaddress : String
  cputempf : ℤ
  runtime : ℤ
  host : String
  hostname : String
  macaddress : String
  endtime : ℚ
  te : ℚ
  cpu : ℚ
  diskusage : String
  memory : ℚ
  rowid : String
  ts : ℤ
  pressure : ℚ
  temperature : ℚ
  humidity : ℚ
  devicetemperature : ℚ
  dewpoint : ℚ
  lux : ℚ
  deriving Repr, DecidableEq

/-- Static identity resolved once in `__init__`: hostname, MAC, IP. -/
structure Identity where
  hostname : String
  mac_address : String
  ip_address : String
  deriving Repr, DecidableEq

/-- `WeatherSensor.read_sensor_data` (weather_sensor.py lines 346-425).
Reads the six cached sensor fields under the lock, converts `temperature`
and `device_temperature` to Fahrenheit with two-decimal rounding, rounds
`pressure`, `humidity`, `dewpoint` and `lux` to two decimals (note: the code
does NOT convert `dewpoint` to Fahrenheit), refreshes the system-metrics
cache via the four `_get_*` accessors, rounds the CPU temperature conversion
to the nearest integer, and assembles the identifiers:
`uuid := "wthr_" ++ randomword ++ "_" ++ timestamp_str` and
`rowid := timestamp_str ++ "_" ++ row_uuid`.  The capture timestamp `ts` is
`int(now.timestamp())`, i.e. the floor of the (nonnegative) clock.  Returns
the record and the advanced foreground state. -/
def readSensorData (ident : Identity) (c : SensorCache) (i : ReadInputs)
    (st : FgState) : Record × FgState :=
  let startTime := st.now
  let metrics := updateSystemMetricsCache st.metrics st.now i.metricReads
  let endTime := startTime + i.readDuration
  let elapsed := endTime - startTime
  let record : Record :=
    { uuid := "wthr_" ++ i.randomword ++ "_" ++ i.timestampStr
      ipaddress := ident.ip_address
      cputempf := round (metrics.cpu_temp * 9 / 5 + 32)
      runtime := round elapsed
      host := ident.hostname
      hostname := ident.hostname
      macaddress := ident.mac_address
      endtime := endTime
      te := elapsed
      cpu := round1 metrics.cpu_usage
      diskusage := metrics.disk_usage
      memory := round1 metrics.memory_usage
      rowid := i.timestampStr ++ "_" ++ i.uuidStr
      ts := ⌊startTime⌋
      pressure := round2 c.pressure
      temperature := round2 (9 / 5 * c.temperature + 32)
      humidity := round2 c.humidity
      devicetemperature := round2 (9 / 5 * c.device_temperature + 32)
      dewpoint := round2 c.dewpoint
      lux := round2 c.lux }
  (record, { now := endTime, metrics := metrics })

/-- The loop body of `WeatherSensor.read_batch` (weather_sensor.py lines
443-448), written as recursion on the number of remaining iterations:
`remaining = count - i` for the loop variable `i`, so `remaining = n + 1`
corresponds to iteration `i = count - n - 1`, and the guard
`i < count - 1` (sleep between readings, but not after the last) is exactly
`n ≠ 0`.  `time.sleep(actual_interval)` advances the clock by
`actualInterval`; `inputs k` supplies the per-call environment of iteration
`k`. -/
def readBatchGo (ident : Identity) (c : SensorCache) (inputs : ℕ → ReadInputs)
    (actualInterval : ℚ) : ℕ → ℕ → FgState → List Record × FgState
  | 0, _, st => ([], st)
  | n + 1, i, st =>
    let step := readSensorData ident c (inputs i) st
    let st2 : FgState :=
      if n = 0 then step.2
      else { step.2 with now := step.2.now + actualInterval }
    let rest := readBatchGo ident c inputs actualInterval n (i + 1) st2
    (step.1 :: rest.1, rest.2)

/-- `WeatherSensor.read_batch` (weather_sensor.py lines 427-450): collect
`count` readings, sleeping `actual_interval` between consecutive readings but
not after the last one; `actual_interval` is 50 ms in fast mode and the given
`interval` otherwise. -/
def readBatch (ident : Identity) (c : SensorCache) (inputs : ℕ → ReadInputs)
    (count : ℕ) (interval : ℚ) (fastMode : Bool) (st : FgState) :
    List Record × FgState :=
  let actualInterval : ℚ := if fastMode then 1 / 20 else interval
  readBatchGo ident c inputs actualInterval count 0 st

/-- `WeatherSensor._start_sensor_thread` state (weather_sensor.py lines
254-266): the `_sensor_thread_running` flag and the number of live
`_sensor_update_loop` threads (cache writers) that have been spawned and not
stopped. -/
structure ThreadState where
  sensor_thread_running : Bool
  writerCount : ℕ
  deriving Repr, DecidableEq

/-- `WeatherSensor._start_sensor_thread`: in simulation mode it returns
immediately; otherwise it sets `_sensor_thread_running = True`,
unconditionally creates a new `threading.Thread` running
`_sensor_update_loop`, and starts it — there is no check whether a previous
update thread is already running. -/
def startSensorThread (simulate : Bool) (st : ThreadState) : ThreadState :=
  if simulate then st
  else { sensor_thread_running := true, writerCount := st.writerCount + 1 }

/-- Orchestrator loop state of `WeatherStreamingApp.run` (weather_main.py):
the `batch_count` counter, the cycles whose batch was submitted to
`insert_rows`, the cycles whose submission raised (caught, logged), and
whether the loop aborted. -/
structure AppState where
  batchCount : ℕ
  submitted : List ℕ
  failures : List ℕ
  aborted : Bool
  deriving Repr, DecidableEq

/-- Initial orchestrator state: `batch_count = 0`, nothing submitted. -/
def initAppState : AppState :=
  { batchCount := 0, submitted := [], failures := [], aborted := false }

/-- One iteration of the `while self.running` loop of
`WeatherStreamingApp.run` (weather_main.py lines 134-184), abstracted over
the outcome of `self.client.insert_rows(readings)`: the batch counter is
incremented, the batch is collected and submitted, and the submission is
wrapped in `try/except Exception` — a failure is logged and the loop
continues to the next cycle, the batch being dropped (neither retried nor
requeued), so the iteration never aborts the run. -/
def runCycle (st : AppState) (outcome : Except String ℕ) : AppState :=
  let bc := st.batchCount + 1
  match outcome with
  | Except.ok _ =>
      { batchCount := bc, submitted := st.submitted ++ [bc],
        failures := st.failures, aborted := false }
  | Except.error _ =>
      { batchCount := bc, submitted := st.submitted ++ [bc],
        failures := st.failures ++ [bc], aborted := false }

/-- A bounded run of the orchestrator loop: one `runCycle` per element of
`outcomes` (the successive results of `insert_rows`). -/
def runLoop (st : AppState) (outcomes : List (Except String ℕ)) : AppState :=
  outcomes.foldl runCycle st

/-- The `_system_metrics_cache` dict as initialized in `__init__`
(weather_sensor.py lines 78-84): all metrics zero, `last_update = 0.0`. -/
def initSystemMetricsCache : SystemMetricsCache :=
  { cpu_temp := 0, cpu_usage := 0, memory_usage := 0,
    disk_usage := "0.0 MB", last_update := 0 }

/-- Sample static identity (concrete values for witnesses). -/
def sampleIdentity : Identity :=
  { hostname := "raspberrypi", mac_address := "dc:a6:32:00:00:01",
    ip_address := "192.168.1.50" }

/-- Sample outcomes of the four system-metric computations, all succeeding. -/
def sampleMetricReadings : MetricReadings :=
  { cpu_temp := some 45, cpu_usage := some (25 / 2),
    memory_usage := some (331 / 10), disk_usage := some "1234.5 MB" }

/-- Sample metric outcomes in which the CPU-temperature and memory
computations raise while the other two succeed. -/
def failedMetricReadings : MetricReadings :=
  { cpu_temp := none, cpu_usage := some (7 / 2),
    memory_usage := none, disk_usage := some "512.0 MB" }

/-- Sample per-call inputs of `read_sensor_data`. -/
def sampleInputs : ReadInputs :=
  { uuidStr := "0f8fad5b-d9cb-469f-a165-70867728950e", randomword := "abc",
    timestampStr := "20251012120000", metricReads := sampleMetricReadings,
    readDuration := 0 }

/-- A second call's inputs: a different `uuid4`, but the same random word and
the same second-resolution timestamp string. -/
def sampleInputs2 : ReadInputs :=
  { sampleInputs with uuidStr := "7c9e6679-7425-40de-944b-e07fc1f90ae7" }

/-- Sample foreground state: clock at 1000 s, metrics cache refreshed 10 s
ago (still within its TTL). -/
def sampleState : FgState :=
  { now := 1000,
    metrics := { cpu_temp := 40, cpu_usage := 10, memory_usage := 30,
                 disk_usage := "2000.0 MB", last_update := 990 } }

/-- The foreground state half a second after `sampleState` (same second of
wall-clock time, so the same `"%Y%m%d%H%M%S"` rendering). -/
def sampleState2 : FgState :=
  { sampleState with now := sampleState.now + 1 / 2 }

/-- A sensor cache holding good readings from a successful refresh
(temperature 20 °C, dewpoint 20 °C, …). -/
def goodCache : SensorCache :=
  { temperature := 20, humidity := 55, pressure := 1013.25,
    device_temperature := 21, dewpoint := 20, lux := 120,
    last_update := 995, update_count := 7 }

/-- A sample successful poll of the Weather HAT. -/
def samplePoll : PollReading :=
  { temperature := 19, humidity := 50, pressure := 1012,
    device_temperature := 20, dewpoint := 9, lux := 100 }

/-- Claim C1: a refresh cycle initializes all six sensor variables to `0.0`
before the read; when the hardware read raises (`poll = none`) the cache is
left holding exactly those defaults, not the previous good values. -/
theorem update_sensor_cache_failure_resets_to_defaults
    (c : SensorCache) (now : ℚ) :
    (updateSensorCache c none now).temperature = 0 ∧
    (updateSensorCache c none now).humidity = 0 ∧
    (updateSensorCache c none now).pressure = 0 ∧
    (updateSensorCache c none now).device_temperature = 0 ∧
    (updateSensorCache c none now).dewpoint = 0 ∧
    (updateSensorCache c none now).lux = 0 := by
  refine ⟨rfl, rfl, rfl, rfl, rfl, rfl⟩

theorem updateSensorCache_last_update (c : SensorCache) (p : Option PollReading)
    (t : ℚ) : (updateSensorCache c p t).last_update = t := rfl

theorem updateSensorCache_update_count (c : SensorCache) (p : Option PollReading)
    (t : ℚ) : (updateSensorCache c p t).update_count = c.update_count + 1 := rfl

theorem runRefreshes_nil (c : SensorCache) : runRefreshes c [] = c := rfl

theorem runRefreshes_cons (c : SensorCache) (s : Option PollReading × ℚ)
    (rest : List (Option PollReading × ℚ)) :
    runRefreshes c (s :: rest) = runRefreshes (updateSensorCache c s.1 s.2) rest := rfl

theorem runRefreshes_append (c : SensorCache)
    (l1 l2 : List (Option PollReading × ℚ)) :
    runRefreshes c (l1 ++ l2) = runRefreshes (runRefreshes c l1) l2 :=
  List.foldl_append _ _ l1 l2

theorem runRefreshes_update_count (c : SensorCache)
    (steps : List (Option PollReading × ℚ)) :
    (runRefreshes c steps).update_count = c.update_count + steps.length := by
  induction steps generalizing c with
  | nil => simp [runRefreshes]
  | cons s rest ih =>
    rw [runRefreshes_cons, ih, updateSensorCache_update_count, List.length_cons]
    omega

theorem runRefreshes_last_update_le (c : SensorCache)
    (steps : List (Option PollReading × ℚ))
    (h : List.Chain (· ≤ ·) c.last_update (steps.map Prod.snd)) :
    c.last_update ≤ (runRefreshes c steps).last_update := by
  induction steps generalizing c with
  | nil => exact le_refl _
  | cons s rest ih =>
    rw [List.map_cons, List.chain_cons] at h
    rw [runRefreshes_cons]
    refine le_trans h.1 ?_
    have h2 := ih (updateSensorCache c s.1 s.2)
      (by rw [updateSensorCache_last_update]; exact h.2)
    rwa [updateSensorCache_last_update] at h2

theorem runRefreshes_take_last_update_le (c : SensorCache)
    (steps : List (Option PollReading × ℚ))
    (h : List.Chain (· ≤ ·) c.last_update (steps.map Prod.snd)) :
    ∀ (k : ℕ) (hk : k < steps.length),
      (runRefreshes c (steps.take k)).last_update ≤ (steps.get ⟨k, hk⟩).2 := by
  induction steps generalizing c with
  | nil => intro k hk; exact absurd hk (Nat.not_lt_zero k)
  | cons s rest ih =>
    rw [List.map_cons, List.chain_cons] at h
    intro k hk
    match k with
    | 0 => exact h.1
    | k + 1 =>
      have hk' : k < rest.length := Nat.lt_of_succ_lt_succ hk
      have := ih (updateSensorCache c s.1 s.2)
        (by rw [updateSensorCache_last_update]; exact h.2) k hk'
      simpa [List.take_succ_cons, runRefreshes_cons] using this

/-- Claim C3: across any sequence of background refreshes whose wall-clock
write times never run backwards, each refresh increments the update sequence
number by exactly one (so the sequence strictly increases) and the refresh
timestamp never regresses; over the whole run the count grows by the number
of refreshes and the final timestamp is no older than the initial one. -/
theorem sensor_cache_sequence_and_timestamp_invariant (c : SensorCache)
    (steps : List (Option PollReading × ℚ))
    (h : List.Chain (· ≤ ·) c.last_update (steps.map Prod.snd)) :
    (∀ (k : ℕ) (hk : k < steps.length),
      (runRefreshes c (steps.take (k + 1))).update_count =
        (runRefreshes c (steps.take k)).update_count + 1 ∧
      (runRefreshes c (steps.take k)).last_update ≤
        (runRefreshes c (steps.take (k + 1))).last_update) ∧
    (runRefreshes c steps).update_count = c.update_count + steps.length ∧
    c.last_update ≤ (runRefreshes c steps).last_update := by
  refine ⟨?_, runRefreshes_update_count c steps,
    runRefreshes_last_update_le c steps h⟩
  intro k hk
  have htake : steps.take (k + 1) = steps.take k ++ [steps.get ⟨k, hk⟩] := by
    rw [List.take_succ]
    congr 1
    rw [List.getElem?_eq_getElem hk]
    rfl
  rw [htake, runRefreshes_append]
  constructor
  · rw [runRefreshes_cons, runRefreshes_nil, updateSensorCache_update_count]
  · rw [runRefreshes_cons, runRefreshes_nil, updateSensorCache_last_update]
    exact runRefreshes_take_last_update_le c steps h k hk

/-- Witness for C3 at a concrete two-refresh run (one failed poll at time 1,
one successful poll at time 2) from `goodCache`. -/
theorem sensor_cache_sequence_and_timestamp_invariant_witness :
    List.Chain (· ≤ ·) goodCache.last_update
      (([(none, 995), (some samplePoll, 997)] :
        List (Option PollReading × ℚ)).map Prod.snd) ∧
    (runRefreshes goodCache [(none, 995), (some samplePoll, 997)]).update_count =
      goodCache.update_count + 2 ∧
    goodCache.last_update ≤
      (runRefreshes goodCache [(none, 995), (some samplePoll, 997)]).last_update := by
  have hchain : List.Chain (· ≤ ·) goodCache.last_update
      (([(none, 995), (some samplePoll, 997)] :
        List (Option PollReading × ℚ)).map Prod.snd) := by
    show List.Chain (· ≤ ·) (995 : ℚ) [995, 997]
    exact List.Chain.cons (by norm_num) (List.Chain.cons (by norm_num) List.Chain.nil)
  have h := sensor_cache_sequence_and_timestamp_invariant goodCache
    [(none, 995), (some samplePoll, 997)] hchain
  exact ⟨hchain, h.2.1, h.2.2⟩

/-- Counterexample to claim C2: a failed background refresh does change the
data fields seen by a foreground `read_sensor_data` call — the cached 20 °C
that read as 68 °F before the failed refresh reads as 32 °F after it, so the
failure is observable beyond the staleness signal. -/
theorem read_sensor_data_failed_refresh_changes_foreground_cex :
    (readSensorData sampleIdentity goodCache sampleInputs sampleState).1.temperature = 68 ∧
    (readSensorData sampleIdentity (updateSensorCache goodCache none 1000)
      sampleInputs sampleState).1.temperature = 32 ∧
    (readSensorData sampleIdentity (updateSensorCache goodCache none 1000)
        sampleInputs sampleState).1.temperature ≠
      (readSensorData sampleIdentity goodCache sampleInputs sampleState).1.temperature := by
  have h1 : (readSensorData sampleIdentity goodCache sampleInputs
      sampleState).1.temperature = 68 := by
    show round2 (9 / 5 * goodCache.temperature + 32) = 68
    norm_num [goodCache, round2, round_eq]
  have h2 : (readSensorData sampleIdentity (updateSensorCache goodCache none 1000)
      sampleInputs sampleState).1.temperature = 32 := by
    show round2 (9 / 5 * (0 : ℚ) + 32) = 32
    norm_num [round2, round_eq]
  refine ⟨h1, h2, ?_⟩
  rw [h1, h2]
  norm_num

/-- Claim C2 as amended: after a background refresh in which the poll fails,
the snapshot seen by a foreground `read_sensor_data` call is fully determined
by the refresh time — the data fields are reset to the defaults (so the
converted temperature fields read 32 °F and the raw fields 0), independent of
the previous snapshot's values, and the staleness baseline `last_update`
becomes the failed refresh's own time. -/
theorem read_sensor_data_after_failed_refresh_sees_defaults (ident : Identity)
    (c c' : SensorCache) (t : ℚ) (i : ReadInputs) (st : FgState) :
    readSensorData ident (updateSensorCache c none t) i st =
      readSensorData ident (updateSensorCache c' none t) i st ∧
    (readSensorData ident (updateSensorCache c none t) i st).1.temperature = 32 ∧
    (readSensorData ident (updateSensorCache c none t) i st).1.humidity = 0 ∧
    (readSensorData ident (updateSensorCache c none t) i st).1.pressure = 0 ∧
    (readSensorData ident (updateSensorCache c none t) i st).1.devicetemperature = 32 ∧
    (readSensorData ident (updateSensorCache c none t) i st).1.dewpoint = 0 ∧
    (readSensorData ident (updateSensorCache c none t) i st).1.lux = 0 ∧
    (updateSensorCache c none t).last_update = t := by
  refine ⟨rfl, ?_, ?_, ?_, ?_, ?_, ?_, rfl⟩
  · show round2 (9 / 5 * (0 : ℚ) + 32) = 32
    norm_num [round2, round_eq]
  · show round2 (0 : ℚ) = 0
    norm_num [round2, round_eq]
  · show round2 (0 : ℚ) = 0
    norm_num [round2, round_eq]
  · show round2 (9 / 5 * (0 : ℚ) + 32) = 32
    norm_num [round2, round_eq]
  · show round2 (0 : ℚ) = 0
    norm_num [round2, round_eq]
  · show round2 (0 : ℚ) = 0
    norm_num [round2, round_eq]

theorem readSensorData_now (ident : Identity) (c : SensorCache)
    (i : ReadInputs) (st : FgState) :
    (readSensorData ident c i st).2.now = st.now + i.readDuration := rfl

theorem readSensorData_ts (ident : Identity) (c : SensorCache)
    (i : ReadInputs) (st : FgState) :
    (readSensorData ident c i st).1.ts = ⌊st.now⌋ := rfl

theorem readBatchGo_length (ident : Identity) (c : SensorCache)
    (inputs : ℕ → ReadInputs) (a : ℚ) (n i : ℕ) (st : FgState) :
    (readBatchGo ident c inputs a n i st).1.length = n := by
  induction n generalizing i st with
  | zero => rfl
  | succ n ih => simp [readBatchGo, ih]

theorem readBatchGo_now (ident : Identity) (c : SensorCache)
    (inputs : ℕ → ReadInputs) (a : ℚ) (n i : ℕ) (st : FgState) :
    (readBatchGo ident c inputs a n i st).2.now =
      st.now + (∑ k in Finset.range n, (inputs (i + k)).readDuration) +
        ((n - 1 : ℕ) : ℚ) * a := by
  induction n generalizing i st with
  | zero => simp [readBatchGo]
  | succ n ih =>
    by_cases hn : n = 0
    · subst hn
      simp [readBatchGo, readSensorData]
    · have hn1 : 1 ≤ n := Nat.one_le_iff_ne_zero.mpr hn
      simp only [readBatchGo, if_neg hn]
      rw [ih (i + 1)]
      have hidx : ∀ k, i + (k + 1) = i + 1 + k := fun k => by omega
      have hsum : (∑ k in Finset.range (n + 1), (inputs (i + k)).readDuration) =
          (∑ k in Finset.range n, (inputs (i + 1 + k)).readDuration) +
            (inputs i).readDuration := by
        rw [Finset.sum_range_succ' (fun k => (inputs (i + k)).readDuration) n]
        congr 1
        exact Finset.sum_congr rfl fun k _ =>
          congrArg (fun m => (inputs m).readDuration) (hidx k)
      have hcast : ((n - 1 : ℕ) : ℚ) = (n : ℚ) - 1 := by
        push_cast [Nat.cast_sub hn1]
        ring
      rw [hsum, hcast]
      rw [Nat.succ_sub_one]
      push_cast
      simp only [readSensorData]
      ring

theorem chain_le_of_le {x y : ℤ} {l : List ℤ}
    (h : List.Chain (· ≤ ·) x l) (hyx : y ≤ x) : List.Chain (· ≤ ·) y l := by
  cases l with
  | nil => exact List.Chain.nil
  | cons b l' =>
    rw [List.chain_cons] at h ⊢
    exact ⟨le_trans hyx h.1, h.2⟩

theorem chain'_of_chain {α : Type*} {R : α → α → Prop} {a : α} {l : List α}
    (h : List.Chain R a l) : List.Chain' R l := by
  cases l with
  | nil => exact List.chain'_nil
  | cons b l' => exact (List.chain_cons.mp h).2

theorem readBatchGo_ts_chain (ident : Identity) (c : SensorCache)
    (inputs : ℕ → ReadInputs) (a : ℚ) (ha : 0 ≤ a)
    (hdur : ∀ k, 0 ≤ (inputs k).readDuration) (n i : ℕ) (st : FgState) :
    List.Chain (· ≤ ·) ⌊st.now⌋
      (((readBatchGo ident c inputs a n i st).1).map Record.ts) := by
  induction n generalizing i st with
  | zero => exact List.Chain.nil
  | succ n ih =>
    simp only [readBatchGo, List.map_cons]
    rw [List.chain_cons]
    refine ⟨le_refl _, ?_⟩
    by_cases hn : n = 0
    · subst hn
      exact List.Chain.nil
    · simp only [if_neg hn]
      have hstep : st.now ≤ st.now + (inputs i).readDuration + a := by
        have := hdur i
        linarith
      have h2 := ih (i + 1)
        { now := st.now + (inputs i).readDuration + a,
          metrics := updateSystemMetricsCache st.metrics st.now (inputs i).metricReads }
      exact chain_le_of_le h2 (Int.floor_mono hstep)

/-- Claim C4: for `count = N ≥ 1`, `read_batch` returns exactly `N` records,
their capture timestamps are non-decreasing, and no inter-record delay is
inserted after the last record — the total clock advance is the reads' own
durations plus exactly `N - 1` inter-record intervals. -/
theorem read_batch_length_monotone_ts_no_trailing_delay (ident : Identity)
    (c : SensorCache) (inputs : ℕ → ReadInputs) (count : ℕ) (interval : ℚ)
    (fastMode : Bool) (st : FgState) (hcount : 1 ≤ count)
    (hint : 0 ≤ interval) (hdur : ∀ k, 0 ≤ (inputs k).readDuration) :
    (readBatch ident c inputs count interval fastMode st).1.length = count ∧
    List.Chain' (· ≤ ·)
      (((readBatch ident c inputs count interval fastMode st).1).map Record.ts) ∧
    (readBatch ident c inputs count interval fastMode st).2.now =
      st.now + (∑ k in Finset.range count, (inputs k).readDuration) +
        ((count - 1 : ℕ) : ℚ) * (if fastMode then 1 / 20 else interval) := by
  have ha : (0 : ℚ) ≤ (if fastMode then 1 / 20 else interval) := by
    cases fastMode with
    | false => simpa using hint
    | true => norm_num
  refine ⟨readBatchGo_length ident c inputs _ count 0 st, ?_, ?_⟩
  · exact chain'_of_chain
      (readBatchGo_ts_chain ident c inputs _ ha hdur count 0 st)
  · have h := readBatchGo_now ident c inputs
      (if fastMode then 1 / 20 else interval) count 0 st
    simpa [readBatch] using h

/-- Witness for C4: a concrete batch of two readings at interval 1 s,
non-fast mode, zero-duration reads starting from `sampleState`. -/
theorem read_batch_length_monotone_ts_no_trailing_delay_witness :
    (1 ≤ 2 ∧ (0 : ℚ) ≤ 1) ∧
    ((readBatch sampleIdentity goodCache (fun _ => sampleInputs) 2 1 false
        sampleState).1.length = 2 ∧
      List.Chain' (· ≤ ·)
        (((readBatch sampleIdentity goodCache (fun _ => sampleInputs) 2 1 false
          sampleState).1).map Record.ts) ∧
      (readBatch sampleIdentity goodCache (fun _ => sampleInputs) 2 1 false
          sampleState).2.now =
        sampleState.now +
          (∑ k in Finset.range 2, ((fun _ => sampleInputs) k).readDuration) +
          ((2 - 1 : ℕ) : ℚ) * (if false then 1 / 20 else 1)) := by
  refine ⟨⟨by norm_num, by norm_num⟩, ?_⟩
  exact read_batch_length_monotone_ts_no_trailing_delay sampleIdentity goodCache
    (fun _ => sampleInputs) 2 1 false sampleState (by norm_num) (by norm_num)
    (fun k => by norm_num [sampleInputs])

/-- Claim C5: when the system-metrics cache refreshes (the shared timestamp
is at least the 60 s TTL old), each of the four metrics is recomputed
independently from its own fallible computation — a failure yields only that
metric's private default (`0.0`, or `"0.0 MB"` for disk) with no retry and no
effect on the others — and the shared `last_update` is set to `now`
regardless of which computations failed. -/
theorem system_metrics_refresh_independent_defaults (m : SystemMetricsCache)
    (now : ℚ) (r : MetricReadings)
    (h : systemMetricsCacheDuration ≤ now - m.last_update) :
    (updateSystemMetricsCache m now r).cpu_temp = r.cpu_temp.getD 0 ∧
    (updateSystemMetricsCache m now r).cpu_usage = r.cpu_usage.getD 0 ∧
    (updateSystemMetricsCache m now r).memory_usage = r.memory_usage.getD 0 ∧
    (updateSystemMetricsCache m now r).disk_usage = r.disk_usage.getD "0.0 MB" ∧
    (updateSystemMetricsCache m now r).last_update = now := by
  have hnot : ¬ (now - m.last_update < systemMetricsCacheDuration) :=
    not_lt.mpr h
  rw [updateSystemMetricsCache, if_neg hnot]
  exact ⟨rfl, rfl, rfl, rfl, rfl⟩

/-- Witness for C5 at a concrete refresh: TTL expired (60 s since the initial
timestamp 0), CPU-temperature and memory computations failing, the other two
succeeding. -/
theorem system_metrics_refresh_independent_defaults_witness :
    systemMetricsCacheDuration ≤ (60 : ℚ) - initSystemMetricsCache.last_update ∧
    ((updateSystemMetricsCache initSystemMetricsCache 60
        failedMetricReadings).cpu_temp = failedMetricReadings.cpu_temp.getD 0 ∧
      (updateSystemMetricsCache initSystemMetricsCache 60
        failedMetricReadings).cpu_usage = failedMetricReadings.cpu_usage.getD 0 ∧
      (updateSystemMetricsCache initSystemMetricsCache 60
        failedMetricReadings).memory_usage =
          failedMetricReadings.memory_usage.getD 0 ∧
      (updateSystemMetricsCache initSystemMetricsCache 60
        failedMetricReadings).disk_usage =
          failedMetricReadings.disk_usage.getD "0.0 MB" ∧
      (updateSystemMetricsCache initSystemMetricsCache 60
        failedMetricReadings).last_update = 60) := by
  have h : systemMetricsCacheDuration ≤
      (60 : ℚ) - initSystemMetricsCache.last_update := by
    norm_num [systemMetricsCacheDuration, initSystemMetricsCache]
  exact ⟨h, system_metrics_refresh_independent_defaults initSystemMetricsCache
    60 failedMetricReadings h⟩

/-- Counterexample to claim C6: two metric reads 2 s apart (well within the
60 s TTL window of each other), at times 59 and 61 starting from the initial
cache (`last_update = 0`), observe different refresh timestamps — the first
read does not refresh (age 59 < 60) and observes 0, the second refreshes
(age 61 ≥ 60) and observes 61. -/
theorem system_metrics_reads_within_window_cex :
    (61 : ℚ) - 59 < systemMetricsCacheDuration ∧
    (updateSystemMetricsCache initSystemMetricsCache 59
      sampleMetricReadings).last_update = 0 ∧
    (updateSystemMetricsCache
      (updateSystemMetricsCache initSystemMetricsCache 59 sampleMetricReadings)
      61 sampleMetricReadings).last_update = 61 ∧
    (updateSystemMetricsCache initSystemMetricsCache 59
        sampleMetricReadings).last_update ≠
      (updateSystemMetricsCache
        (updateSystemMetricsCache initSystemMetricsCache 59 sampleMetricReadings)
        61 sampleMetricReadings).last_update := by
  have h59 : updateSystemMetricsCache initSystemMetricsCache 59
      sampleMetricReadings = initSystemMetricsCache := by
    rw [updateSystemMetricsCache, if_pos (by
      norm_num [systemMetricsCacheDuration, initSystemMetricsCache])]
  have h61 : (updateSystemMetricsCache initSystemMetricsCache 61
      sampleMetricReadings).last_update = 61 := by
    rw [updateSystemMetricsCache, if_neg (by
      norm_num [systemMetricsCacheDuration, initSystemMetricsCache])]
  refine ⟨by norm_num [systemMetricsCacheDuration], ?_, ?_, ?_⟩
  · rw [h59]
    rfl
  · rw [h59, h61]
  · rw [h59, h61]
    norm_num [initSystemMetricsCache]

/-- Claim C6 as amended: the TTL window is anchored at the cached refresh
timestamp, not at the previous read — a read for which the cached timestamp
is younger than the 60 s TTL observes that same timestamp unchanged, while a
read at which the TTL has expired installs its own (strictly greater)
wall-clock time as the new shared timestamp. -/
theorem system_metrics_refresh_timestamp_ttl (m : SystemMetricsCache) (t : ℚ)
    (r : MetricReadings) :
    (t - m.last_update < systemMetricsCacheDuration →
      (updateSystemMetricsCache m t r).last_update = m.last_update) ∧
    (systemMetricsCacheDuration ≤ t - m.last_update →
      (updateSystemMetricsCache m t r).last_update = t ∧
      m.last_update < (updateSystemMetricsCache m t r).last_update) := by
  constructor
  · intro h
    rw [updateSystemMetricsCache, if_pos h]
  · intro h
    have hnot : ¬ (t - m.last_update < systemMetricsCacheDuration) :=
      not_lt.mpr h
    have ht : (updateSystemMetricsCache m t r).last_update = t := by
      rw [updateSystemMetricsCache, if_neg hnot]
    refine ⟨ht, ?_⟩
    rw [ht]
    have h60 : (0 : ℚ) < systemMetricsCacheDuration := by
      norm_num [systemMetricsCacheDuration]
    linarith

/-- Witness for C6 (amended) at concrete reads: a read at time 59 from the
initial cache keeps the timestamp 0; a read at time 61 installs 61 > 0. -/
theorem system_metrics_refresh_timestamp_ttl_witness :
    ((59 : ℚ) - initSystemMetricsCache.last_update < systemMetricsCacheDuration ∧
      (updateSystemMetricsCache initSystemMetricsCache 59
        sampleMetricReadings).last_update = initSystemMetricsCache.last_update) ∧
    (systemMetricsCacheDuration ≤ (61 : ℚ) - initSystemMetricsCache.last_update ∧
      (updateSystemMetricsCache initSystemMetricsCache 61
        sampleMetricReadings).last_update = 61 ∧
      initSystemMetricsCache.last_update <
        (updateSystemMetricsCache initSystemMetricsCache 61
          sampleMetricReadings).last_update) := by
  have h1 : (59 : ℚ) - initSystemMetricsCache.last_update <
      systemMetricsCacheDuration := by
    norm_num [systemMetricsCacheDuration, initSystemMetricsCache]
  have h2 : systemMetricsCacheDuration ≤
      (61 : ℚ) - initSystemMetricsCache.last_update := by
    norm_num [systemMetricsCacheDuration, initSystemMetricsCache]
  refine ⟨⟨h1, ?_⟩, ⟨h2, ?_⟩⟩
  · exact (system_metrics_refresh_timestamp_ttl initSystemMetricsCache 59
      sampleMetricReadings).1 h1
  · exact (system_metrics_refresh_timestamp_ttl initSystemMetricsCache 61
      sampleMetricReadings).2 h2

theorem runCycle_shape (st : AppState) (o : Except String ℕ) :
    (runCycle st o).batchCount = st.batchCount + 1 ∧
    (runCycle st o).submitted = st.submitted ++ [st.batchCount + 1] ∧
    (runCycle st o).aborted = false := by
  cases o <;> exact ⟨rfl, rfl, rfl⟩

theorem runLoop_general (outcomes : List (Except String ℕ)) (st : AppState) :
    (runLoop st outcomes).submitted =
      st.submitted ++ List.range' (st.batchCount + 1) outcomes.length ∧
    (runLoop st outcomes).batchCount = st.batchCount + outcomes.length ∧
    ((runLoop st outcomes).aborted = st.aborted ∨
      (runLoop st outcomes).aborted = false) := by
  induction outcomes generalizing st with
  | nil => exact ⟨by simp [runLoop], by simp [runLoop], Or.inl rfl⟩
  | cons o rest ih =>
    have hstep : runLoop st (o :: rest) = runLoop (runCycle st o) rest := rfl
    have hc := runCycle_shape st o
    have hr := ih (runCycle st o)
    refine ⟨?_, ?_, ?_⟩
    · rw [hstep, hr.1, hc.2.1, hc.1, List.length_cons, List.append_assoc,
        List.range'_succ, List.singleton_append]
    · rw [hstep, hr.2.1, hc.1, List.length_cons]
      omega
    · rw [hstep]
      rcases hr.2.2 with h | h
      · rw [h, hc.2.2]
        exact Or.inr rfl
      · exact Or.inr h

/-- Claim C7: a failing sink insert is contained inside its own cycle — the
run never aborts, every cycle's batch is submitted exactly once (the failed
batch is dropped, neither retried nor requeued), and in particular when the
sink rejects batch 2 of a 5-cycle run, cycles 1, 3, 4 and 5 still submit and
the run completes with exactly one recorded failure. -/
theorem run_loop_failure_contained_no_abort
    (outcomes : List (Except String ℕ)) :
    (runLoop initAppState outcomes).aborted = false ∧
    (runLoop initAppState outcomes).submitted = List.range' 1 outcomes.length ∧
    runLoop initAppState
        [Except.ok 10, Except.error "sink rejected batch", Except.ok 10,
          Except.ok 10, Except.ok 10] =
      { batchCount := 5, submitted := [1, 2, 3, 4, 5], failures := [2],
        aborted := false } := by
  have h := runLoop_general outcomes initAppState
  refine ⟨?_, ?_, by rfl⟩
  · rcases h.2.2 with h' | h'
    · exact h'
    · exact h'
  · have := h.1
    simpa [initAppState] using this

/-- Counterexample to claim C8: the `dewpoint` field is NOT converted to
Fahrenheit — `read_sensor_data` stores `round(dewpoint, 2)` of the cached
(Celsius) value, so a cached dewpoint of 20 yields a record field of 20,
not the 68 that the claimed `C × 9/5 + 32` conversion would give. -/
theorem read_sensor_data_dewpoint_not_converted_cex :
    (readSensorData sampleIdentity goodCache sampleInputs sampleState).1.dewpoint = 20 ∧
    round2 (9 / 5 * goodCache.dewpoint + 32) = 68 ∧
    (readSensorData sampleIdentity goodCache sampleInputs sampleState).1.dewpoint ≠
      round2 (9 / 5 * goodCache.dewpoint + 32) := by
  have h1 : (readSensorData sampleIdentity goodCache sampleInputs
      sampleState).1.dewpoint = 20 := by
    show round2 goodCache.dewpoint = 20
    norm_num [goodCache, round2, round_eq]
  have h2 : round2 (9 / 5 * goodCache.dewpoint + 32) = 68 := by
    norm_num [goodCache, round2, round_eq]
  refine ⟨h1, h2, ?_⟩
  rw [h1, h2]
  norm_num

/-- Claim C8 as amended: in every record built by `read_sensor_data`, the
sensor temperature and device temperature fields are `C × 9/5 + 32` rounded
to 2 decimals, the CPU temperature field is `C × 9/5 + 32` rounded to the
nearest integer, and the dewpoint field is the cached value rounded to 2
decimals with no Fahrenheit conversion; a cached 20.0 °C reads as 68.0 °F
and 0.0 °C as 32.0 °F. -/
theorem read_sensor_data_unit_conversions (ident : Identity) (c : SensorCache)
    (i : ReadInputs) (st : FgState) :
    (readSensorData ident c i st).1.temperature =
      round2 (9 / 5 * c.temperature + 32) ∧
    (readSensorData ident c i st).1.devicetemperature =
      round2 (9 / 5 * c.device_temperature + 32) ∧
    (readSensorData ident c i st).1.cputempf =
      round ((updateSystemMetricsCache st.metrics st.now
        i.metricReads).cpu_temp * 9 / 5 + 32) ∧
    (readSensorData ident c i st).1.dewpoint = round2 c.dewpoint ∧
    (readSensorData ident { c with temperature := 20 } i st).1.temperature = 68 ∧
    (readSensorData ident { c with temperature := 0 } i st).1.temperature = 32 := by
  refine ⟨rfl, rfl, rfl, rfl, ?_, ?_⟩
  · show round2 (9 / 5 * (20 : ℚ) + 32) = 68
    norm_num [round2, round_eq]
  · show round2 (9 / 5 * (0 : ℚ) + 32) = 32
    norm_num [round2, round_eq]

/-- Counterexample to claim C9: `_start_sensor_thread` is not idempotent —
starting from a fresh state, a second start leaves a different state than a
single start, having spawned a second update-loop thread (a second cache
writer). -/
theorem start_sensor_thread_not_idempotent_cex :
    startSensorThread false (startSensorThread false
        { sensor_thread_running := false, writerCount := 0 }) ≠
      startSensorThread false
        { sensor_thread_running := false, writerCount := 0 } ∧
    (startSensorThread false (startSensorThread false
        { sensor_thread_running := false, writerCount := 0 })).writerCount = 2 ∧
    (startSensorThread false
        { sensor_thread_running := false, writerCount := 0 }).writerCount = 1 := by
  refine ⟨?_, rfl, rfl⟩
  decide

/-- Claim C9 as amended: `_start_sensor_thread` has no already-running guard
— every invocation with simulation disabled sets the running flag and spawns
one additional update-loop thread, so invoking it while the task is already
running creates a second writer; only in simulation mode is it a no-op. (In
the program it is invoked at most once, from `__init__`.) -/
theorem start_sensor_thread_spawns_new_writer (st : ThreadState) :
    (startSensorThread false st).sensor_thread_running = true ∧
    (startSensorThread false st).writerCount = st.writerCount + 1 ∧
    startSensorThread true st = st := by
  exact ⟨rfl, rfl, rfl⟩

/-- Counterexample to claim C10: the record's `"uuid"` field is the compact
correlation id `wthr_<3 letters>_<YYYYMMDDHHMMSS>`, not the high-entropy
`uuid4` — two distinct calls (different `uuid4` inputs, hence different
`rowid`s) made in the same wall-clock second with the same 3-letter random
word produce the very same `"uuid"` field value. -/
theorem record_uuid_field_collision_cex :
    sampleInputs ≠ sampleInputs2 ∧
    (readSensorData sampleIdentity goodCache sampleInputs sampleState).1.rowid ≠
      (readSensorData sampleIdentity goodCache sampleInputs2 sampleState2).1.rowid ∧
    (readSensorData sampleIdentity goodCache sampleInputs sampleState).1.uuid =
      (readSensorData sampleIdentity goodCache sampleInputs2 sampleState2).1.uuid := by
  refine ⟨by decide, ?_, ?_⟩
  · show sampleInputs.timestampStr ++ "_" ++ sampleInputs.uuidStr ≠
      sampleInputs2.timestampStr ++ "_" ++ sampleInputs2.uuidStr
    decide
  · show "wthr_" ++ sampleInputs.randomword ++ "_" ++ sampleInputs.timestampStr =
      "wthr_" ++ sampleInputs2.randomword ++ "_" ++ sampleInputs2.timestampStr
    decide

theorem string_append_left_cancel {p s1 s2 : String}
    (h : p ++ s1 = p ++ s2) : s1 = s2 := by
  cases p with | mk dp =>
  cases s1 with | mk d1 =>
  cases s2 with | mk d2 =>
  have h2 : dp ++ d1 = dp ++ d2 := congrArg String.data h
  exact congrArg String.mk (List.append_cancel_left h2)

/-- Claim C10 as amended: the `"uuid"` field of a record is the compact
correlation id `"wthr_" ++ <random word> ++ "_" ++ <timestamp>`, determined
entirely by the 3-letter random word and the second-resolution timestamp —
two calls in the same second with the same word collide on it; the fresh
high-entropy `uuid4` is embedded in the `rowid` field instead, so two calls
with distinct `uuid4` values (and the same timestamp string) always produce
distinct `rowid`s. -/
theorem record_identifier_structure (ident : Identity) (c : SensorCache)
    (i1 i2 : ReadInputs) (st1 st2 : FgState)
    (hts : i1.timestampStr = i2.timestampStr)
    (huuid : i1.uuidStr ≠ i2.uuidStr) :
    (readSensorData ident c i1 st1).1.uuid =
      "wthr_" ++ i1.randomword ++ "_" ++ i1.timestampStr ∧
    (readSensorData ident c i1 st1).1.rowid =
      i1.timestampStr ++ "_" ++ i1.uuidStr ∧
    (readSensorData ident c i1 st1).1.rowid ≠
      (readSensorData ident c i2 st2).1.rowid ∧
    (i1.randomword = i2.randomword →
      (readSensorData ident c i1 st1).1.uuid =
        (readSensorData ident c i2 st2).1.uuid) := by
  refine ⟨rfl, rfl, ?_, ?_⟩
  · intro heq
    have heq' : i1.timestampStr ++ "_" ++ i1.uuidStr =
        i2.timestampStr ++ "_" ++ i2.uuidStr := heq
    rw [hts] at heq'
    exact huuid (string_append_left_cancel heq')
  · intro hw
    show "wthr_" ++ i1.randomword ++ "_" ++ i1.timestampStr =
      "wthr_" ++ i2.randomword ++ "_" ++ i2.timestampStr
    rw [hw, hts]

/-- Witness for C10 (amended) at the concrete same-second, distinct-`uuid4`
pair of calls. -/
theorem record_identifier_structure_witness :
    sampleInputs.timestampStr = sampleInputs2.timestampStr ∧
    sampleInputs.uuidStr ≠ sampleInputs2.uuidStr ∧
    (readSensorData sampleIdentity goodCache sampleInputs sampleState).1.uuid =
      "wthr_" ++ sampleInputs.randomword ++ "_" ++ sampleInputs.timestampStr ∧
    (readSensorData sampleIdentity goodCache sampleInputs sampleState).1.rowid ≠
      (readSensorData sampleIdentity goodCache sampleInputs2 sampleState2).1.rowid := by
  have hts : sampleInputs.timestampStr = sampleInputs2.timestampStr := rfl
  have hu : sampleInputs.uuidStr ≠ sampleInputs2.uuidStr := by decide
  have h := record_identifier_structure sampleIdentity goodCache sampleInputs
    sampleInputs2 sampleState sampleState2 hts hu
  exact ⟨hts, hu, h.1, h.2.2.1⟩

end WeatherStreaming
